import Mathlib

/-
Verification of the Open Library coverstore routing and shard-index engine
(openlibrary/coverstore/code.py) via a shallow embedding in Lean 4.

Conventions of the embedding:
* Machine integers are Nat; Python integers are unbounded, and the only
  overflow point that matters, the store into an array.array of kind
  L (unsigned 64-bit on the deployment platform), is modelled by an
  explicit bound check producing an overflow error, as CPython raises
  OverflowError there.
* Python raising an uncaught exception is modelled by Except: a .error
  value propagating through the call chain is an uncaught exception
  reaching the web framework (a hard 500-class failure).
* Strings are manipulated as lists of characters; all strings involved are
  ASCII, so Python slicing coincides with list take and drop.
* coverid / 10000 in the source is Python true division producing a float
  that is only ever consumed through a %d format, which truncates; for all
  ids below 2^53 the double is exact and the truncated value equals Nat
  division, so the embedding uses Nat division.
* External collaborators that are not part of the source file (the
  metadata database rows returned by db.details, the filesystem holding
  index artifacts, coverlib.read_image, archive.Cover.get_cover_url) are
  parameters of the model, bundled in Env.
-/

set_option maxRecDepth 4096

namespace Coverstore

/-! ## Decimal digits and zero padding -/

/-- Numeric value of an ASCII digit character. -/
def digitVal (c : Char) : Nat := c.toNat - 48

/-- Fuel-driven decimal digit expansion, most significant digit first.
Fuel `n + 1` always suffices for `n`. -/
def natDigitsAux : Nat → Nat → List Char
  | 0, _ => []
  | fuel + 1, n =>
    if n < 10 then [Nat.digitChar n]
    else natDigitsAux fuel (n / 10) ++ [Nat.digitChar (n % 10)]

/-- Decimal digit characters of a natural number (the digits a Python
%d format or str() produces). -/
def natDigits (n : Nat) : List Char := natDigitsAux (n + 1) n

/-- Decimal string of a natural number. -/
def natStr (n : Nat) : String := ⟨natDigits n⟩

/-- Characters of a zero-padded decimal number, Python "%0wd" % n.
When n has more than w digits no truncation happens, as in Python. -/
def zpadC (w : Nat) (n : Nat) : List Char :=
  List.replicate (w - (natDigits n).length) '0' ++ natDigits n

/-- Zero-padded decimal string, Python "%0wd" % n. -/
def zpadS (w : Nat) (n : Nat) : String := ⟨zpadC w n⟩

/-- Parse a non-empty all-digit character sequence as a natural number.
Models Python int() on the unsigned decimal strings this system feeds it;
inputs with signs, underscores or surrounding whitespace are treated as
malformed (the index artifacts never contain them on the accepted paths,
and any rejected input is an error path in both models). -/
def parseNat (cs : List Char) : Option Nat :=
  if cs ≠ [] ∧ cs.all Char.isDigit then
    some (cs.foldl (fun a c => a * 10 + digitVal c) 0)
  else none

/-! ## Python string helpers -/

/-- The whitespace characters Python str.strip removes. -/
def pyIsSpace (c : Char) : Bool :=
  c == ' ' || c == '\t' || c == '\n' || c == '\r' || c == '\x0b' || c == '\x0c'

/-- Python str.strip on a character list: drop whitespace from both ends. -/
def pyStrip (cs : List Char) : List Char :=
  ((cs.dropWhile pyIsSpace).reverse.dropWhile pyIsSpace).reverse

/-- Python str.split with a single-character tab separator: empty input
gives one empty field, separators delimit fields, empty fields are kept. -/
def splitTabs : List Char → List (List Char)
  | [] => [[]]
  | c :: cs =>
    if c = '\t' then [] :: splitTabs cs
    else
      match splitTabs cs with
      | [] => [[c]]
      | g :: gs => (c :: g) :: gs

/-- Contiguous-substring test, Python needle in hay.
The empty needle occurs in every string, as in Python. -/
def isInfixL : List Char → List Char → Bool
  | n, [] => n.isEmpty
  | n, h :: t => n.isPrefixOf (h :: t) || isInfixL n t

/-- Python needle in hay on strings. -/
def pyInStr (needle hay : String) : Bool := isInfixL needle.data hay.data

/-- Python str.lower for the ASCII strings used here. -/
def pyLower (s : String) : String := ⟨s.data.map Char.toLower⟩

/-- String prefix test on character data. -/
def strStartsWith (s p : String) : Bool := p.data.isPrefixOf s.data

/-- cover.GET.is_valid_url: the default parameter is a redirect target only
when it looks like an absolute http(s) URL. -/
def is_valid_url (url : String) : Bool :=
  strStartsWith url "http://" || strStartsWith url "https://"

/-! ## Data model -/

/-- A datetime, to whole-second granularity plus microseconds.
sec is a linear timestamp; usec the sub-second microsecond part. -/
structure DT where
  sec : Nat
  usec : Nat
deriving DecidableEq, Repr

/-- trim_microsecond (code.py line 206): rebuild the datetime from
timetuple()[:6], dropping the microsecond field. -/
def trim_microsecond (date : DT) : DT := ⟨date.sec, 0⟩

/-- The fixed datetime.datetime(2010, 1, 1) stamped onto shard-index fast
path results (code.py line 350); the concrete timestamp value is
irrelevant to every claim. -/
def datetime2010 : DT := ⟨1262304000, 0⟩

/-- A row of the metadata store as db.details returns it, restricted to the
fields cover.GET reads: id, created, last_modified, uploaded, filename. -/
structure CoverRecord where
  id : Nat
  created : DT
  last_modified : DT
  uploaded : Bool
  filename : String
deriving DecidableEq, Repr

/-- The size classes the URL router admits: the regex captures a single
letter S, M or L, or the empty string for the original image. -/
inductive SizeClass
  | S
  | M
  | L
  | Orig
deriving DecidableEq, Repr

/-- The raw captured size string: "S", "M", "L" or "". -/
def SizeClass.str : SizeClass → String
  | .S => "S"
  | .M => "M"
  | .L => "L"
  | .Orig => ""

/-- size.lower(): "s", "m", "l" or "". -/
def SizeClass.lower : SizeClass → String
  | .S => "s"
  | .M => "m"
  | .L => "l"
  | .Orig => ""

/-- The configuration values cover.GET consults: the blocked id deny-list,
the archive.org cluster cutover index, and the optional placeholder image.
default_image is none when unset or empty (falsy in Python). -/
structure Config where
  blocked_covers : List Nat
  max_coveritem_index : Nat
  default_image : Option String

/-- Uncaught Python exceptions escaping parse_tarindex: a line that does
not unpack into three tab-separated fields (ValueError), a field that is
not a decimal number (ValueError), or an array store out of the unsigned
64-bit range (OverflowError). -/
inductive ParseError
  | badFieldCount
  | badNumber
  | overflow
deriving DecidableEq, Repr

/-- The two parallel 10000-slot arrays parse_tarindex builds, modelled by
their lookup functions on slots (every access uses index = id % 10000,
which is below 10000). -/
structure TarTable where
  offsets : Nat → Nat
  sizes : Nat → Nat

/-- The freshly initialised zero arrays. -/
def initTable : TarTable := ⟨fun _ => 0, fun _ => 0⟩

/-- What get_details hands to the serving code: either the web.storage
dictionary built on the shard-index fast path, or a metadata-store row. -/
inductive Details
  | tarDetails (id : Nat) (key : String) (path : String)
  | dbDetails (r : CoverRecord)
deriving DecidableEq, Repr

/-- d.id. -/
def detId : Details → Nat
  | .tarDetails i _ _ => i
  | .dbDetails r => r.id

/-- d.created; the fast-path storage carries the fixed 2010-01-01 stamp. -/
def detCreated : Details → DT
  | .tarDetails _ _ _ => datetime2010
  | .dbDetails r => r.created

/-- d.uploaded; only evaluated behind the d.id >= 8_820_000 guard, which a
fast-path storage (id < 6_000_000) never passes, so the value given to the
fast-path case is never observed. -/
def detUploaded : Details → Bool
  | .tarDetails _ _ _ => false
  | .dbDetails r => r.uploaded

/-- d.filename, as consulted by the .zip redirect branch. -/
def detFilename : Details → String
  | .tarDetails _ _ p => p
  | .dbDetails r => r.filename

/-- The cache lifetime headers cover.GET attaches to an image body:
Cache-Control public with a 100-year expiry, or with a 600-second expiry. -/
inductive CacheHdr
  | forever
  | tenMinutes
deriving DecidableEq, Repr

/-- The terminal outcomes of one cover.GET request.
placeholderImage is the configured default image body; seeother and found
are redirects; notfoundEmpty is web.notfound("") from the notfound()
helper; notfoundBare is the web.notfound() raised by the OSError handler;
image carries the cache headers, the validator headers web.modified set
(ETag and Last-Modified, only on id-keyed requests) and the body bytes. -/
inductive Response
  | placeholderImage (path : String)
  | seeother (url : String)
  | notfoundEmpty
  | notfoundBare
  | found (url : String)
  | notmodified
  | image (cache : CacheHdr) (etag : Option String) (lastModified : Option DT) (body : String)
deriving DecidableEq, Repr

/-- Per-request transport context: the default query parameter (web.input
default "true") and the conditional-GET request headers. -/
structure Ctx where
  idefault : String
  ifNoneMatch : Option String
  ifModifiedSince : Option DT

/-- The collaborators of cover.GET that live outside the source file:
configuration, the filesystem holding index artifacts (path to lines),
the metadata store, coverlib.read_image (an OSError is .error), the
archive.Cover.get_cover_url naming scheme, and the request protocol. -/
structure Env where
  cfg : Config
  fs : String → Option (List (List Char))
  db : Nat → Option CoverRecord
  readImage : Details → String → Except Unit String
  archiveCoverUrl : Nat → String → String → String
  protocol : String

/-! ## Shard index: parse_tarindex and friends (code.py lines 364-408) -/

/-- cover.get_tar_filename lines 366-367: tarindex = coverid / 10000 and
index = coverid % 10000 (the float division is consumed only through %d,
which truncates; exact Nat division for every id below 2^53). -/
def resolveShard (coverid : Nat) : Nat × Nat := (coverid / 10000, coverid % 10000)

/-- Store one parsed record (coverid, offset, imgsize) into the two
arrays at slot coverid % 10000 (code.py lines 405-407). -/
def applyRec (t : TarTable) (p : Nat × Nat × Nat) : TarTable :=
  ⟨fun j => if j = p.1 % 10000 then p.2.1 else t.offsets j,
   fun j => if j = p.1 % 10000 then p.2.2 else t.sizes j⟩

/-- One loop iteration of parse_tarindex (lines 401-407) up to the array
stores: strip the line, skip it when empty, split on tabs into exactly
three fields (ValueError otherwise), parse int(name[:10]), int(offset),
int(imgsize) (ValueError on junk), and check the unsigned 64-bit array
store bound (OverflowError). -/
def parseLine (line : List Char) : Except ParseError (Option (Nat × Nat × Nat)) :=
  if pyStrip line = [] then .ok none
  else
    match splitTabs (pyStrip line) with
    | [name, off, sz] =>
      match parseNat (name.take 10), parseNat off, parseNat sz with
      | some coverid, some offset, some imgsize =>
        if offset < 2 ^ 64 ∧ imgsize < 2 ^ 64 then .ok (some (coverid, offset, imgsize))
        else .error .overflow
      | _, _, _ => .error .badNumber
    | _ => .error .badFieldCount

/-- The line loop of parse_tarindex; the first failing line escapes as an
uncaught exception, discarding the partially filled arrays. -/
def parseLines : TarTable → List (List Char) → Except ParseError TarTable
  | t, [] => .ok t
  | t, line :: rest =>
    match parseLine line with
    | .error e => .error e
    | .ok none => parseLines t rest
    | .ok (some p) => parseLines (applyRec t p) rest

/-- parse_tarindex (code.py lines 396-408): fold the lines of the index
artifact over the two zero-initialised 10000-slot arrays. -/
def parse_tarindex (lines : List (List Char)) : Except ParseError TarTable :=
  parseLines initTable lines

/-- The slot probe of get_tar_filename lines 370-374: fetch offset and
imgsize at the slot; a zero imgsize is falsy, meaning absent. -/
def tarLookup (t : TarTable) (slot : Nat) : Option (Nat × Nat) :=
  if t.sizes slot = 0 then none else some (t.offsets slot, t.sizes slot)

/-- get_tarindex_path (code.py lines 388-393): the on-disk location of one
index artifact, items/<pfx>_<first4>/<pfx>_<first4>_<digits5-6>.index of
the six-digit zero-padded shard index. -/
def get_tarindex_path (index : Nat) (size : String) : String :=
  let name := zpadC 6 index
  let pfx := if size ≠ "" then size ++ "_covers" else "covers"
  let itemname := pfx ++ "_" ++ (⟨name.take 4⟩ : String)
  let filename :=
    pfx ++ "_" ++ (⟨name.take 4⟩ : String) ++ "_" ++ (⟨(name.drop 4).take 2⟩ : String)
      ++ ".index"
  "items/" ++ itemname ++ "/" ++ filename

/-- get_tar_index (code.py lines 382-385): a missing artifact is
(None, None); a present one is handed to parse_tarindex with no exception
handling, so a parse failure propagates. The web.memoize wrapper caches a
pure computation and is dropped from the model. -/
def get_tar_index (fs : String → Option (List (List Char))) (tarindex : Nat)
    (size : String) : Except ParseError (Option TarTable) :=
  match fs (get_tarindex_path tarindex size) with
  | none => .ok none
  | some lines =>
    match parse_tarindex lines with
    | .error e => .error e
    | .ok t => .ok (some t)

/-- get_tar_filename (code.py lines 364-376): shard decomposition, index
load, slot probe, and the tarfile:offset:size locator string built from
the ten-digit zero-padded id. -/
def get_tar_filename (fs : String → Option (List (List Char))) (coverid : Nat)
    (size : String) : Except ParseError (Option String) :=
  let tarindex := (resolveShard coverid).1
  let idx := (resolveShard coverid).2
  match get_tar_index fs tarindex size with
  | .error e => .error e
  | .ok none => .ok none
  | .ok (some t) =>
    match tarLookup t idx with
    | none => .ok none
    | some (offset, imgsize) =>
      let pfx := if size ≠ "" then size ++ "_covers" else "covers"
      let name := zpadC 10 coverid
      .ok (some
        (pfx ++ "_" ++ (⟨name.take 4⟩ : String) ++ "_" ++ (⟨(name.drop 4).take 2⟩ : String)
          ++ ".tar:" ++ natStr offset ++ ":" ++ natStr imgsize))

/-- The fast-path guard of get_details line 346: coverid < 6000000 and
size in "sml". The membership test is the Python substring operator, which
the empty string (the Original size class) also satisfies. -/
def localFastPath (coverid : Nat) (size : String) : Bool :=
  decide (coverid < 6000000) && pyInStr size "sml"

/-- The storage key of the fast-path result (line 348): "filename_s" for a
letter size, plain "filename" for the empty size. -/
def fnameKey (size : String) : String :=
  if size ≠ "" then "filename_" ++ size else "filename"

/-- get_details (code.py lines 339-353): the shard-index fast path when the
guard holds and the probe hits, the metadata store otherwise. The int()
conversion is implicit: the model receives numeric ids. -/
def get_details (env : Env) (coverid : Nat) (size : String) :
    Except ParseError (Option Details) :=
  if localFastPath coverid size then
    match get_tar_filename env.fs coverid size with
    | .error e => .error e
    | .ok (some path) => .ok (some (.tarDetails coverid (fnameKey size) path))
    | .ok none => .ok ((env.db coverid).map Details.dbDetails)
  else .ok ((env.db coverid).map Details.dbDetails)

/-- True on an .ok value; a false result is an uncaught exception. -/
def exceptOk {ε α : Type} : Except ε α → Bool
  | .ok _ => true
  | .error _ => false

/-! ## The cover.GET router (code.py lines 225-315) -/

/-- The deny-list test of line 265: safeint(value) in config.blocked_covers. -/
def blockedCond (cfg : Config) (v : Nat) : Bool := cfg.blocked_covers.contains v

/-- The archive.org cluster test of line 269: size in ("L", "") and
is_cover_in_cluster(value), the latter being
int(value) < IMAGES_PER_ITEM * config.get("max_coveritem_index", 0). -/
def clusterCond (cfg : Config) (v : Nat) (size : SizeClass) : Bool :=
  (size == SizeClass.L || size == SizeClass.Orig)
    && decide (v < 10000 * cfg.max_coveritem_index)

/-- The legacy dense-tar range test of line 275:
8_820_000 > int(value) >= 8_000_000 (the value is numeric here). -/
def denseCond (v : Nat) : Bool := decide (8000000 ≤ v) && decide (v < 8820000)

/-- zipview_url_from_id (code.py lines 215-222) without the protocol
part: olcovers<id / 10000> item, its zip, and the member file name. -/
def zipviewTail (coverid : Nat) (size : SizeClass) : String :=
  let suffix := if size == SizeClass.Orig then "" else "-" ++ size.str
  let itemid := "olcovers" ++ natStr (coverid / 10000)
  let zipfile := itemid ++ suffix ++ ".zip"
  let filename := natStr coverid ++ suffix ++ ".jpg"
  "://archive.org/download/" ++ itemid ++ "/" ++ zipfile ++ "/" ++ filename

/-- The dense-tar redirect target of lines 276-283 without the protocol
part: <pfx>covers_<first4>/<pfx>covers_<first4>_<digits5-6>.tar/<pid>[-S].jpg
of the ten-digit zero-padded id. -/
def denseTarTail (v : Nat) (size : SizeClass) : String :=
  let pfx := if size == SizeClass.Orig then "" else size.lower ++ "_"
  let pid := zpadC 10 v
  let item_id := pfx ++ "covers_" ++ (⟨pid.take 4⟩ : String)
  let item_tar :=
    pfx ++ "covers_" ++ (⟨pid.take 4⟩ : String) ++ "_" ++ (⟨(pid.drop 4).take 2⟩ : String)
      ++ ".tar"
  let item_file :=
    (⟨pid⟩ : String) ++ (if size == SizeClass.Orig then "" else "-" ++ size.str)
  "://archive.org/download/" ++ item_id ++ "/" ++ item_tar ++ "/" ++ item_file ++ ".jpg"

/-- The ETag of line 291: f-string of d.id and size.lower(). -/
def etagStr (i : Nat) (size : SizeClass) : String :=
  natStr i ++ "-" ++ size.lower

/-- web.modified from the web.py framework: true when the resource counts
as modified. The client validators match when the ETag is presented in
If-None-Match (or a wildcard is), or the date, minus the one-second
HTTP-date tolerance, is at or before If-Modified-Since. -/
def webModified (inm : Option String) (ims : Option DT) (date : DT)
    (etag : String) : Bool :=
  let etagMatch :=
    match inm with
    | some s => s == etag || s == "*"
    | none => false
  let dateMatch :=
    match ims with
    | some m => decide (date.sec ≤ m.sec + 1)
    | none => false
  !(etagMatch || dateMatch)

/-- The notfound() helper of lines 233-243: the configured placeholder
image unless the default parameter is "false" or an absolute URL; a
redirect when it is an absolute URL; web.notfound("") otherwise. -/
def notfoundResp (cfg : Config) (idefault : String) : Response :=
  match cfg.default_image with
  | some img =>
    if pyLower idefault ≠ "false" ∧ is_valid_url idefault = false then
      .placeholderImage img
    else if is_valid_url idefault then .seeother idefault
    else .notfoundEmpty
  | none =>
    if is_valid_url idefault then .seeother idefault
    else .notfoundEmpty

/-- The guard of line 307: d.id >= 8_820_000 and d.uploaded and
".zip" in d.filename. -/
def zipRedirectCond (d : Details) : Bool :=
  decide (8820000 ≤ detId d) && detUploaded d && pyInStr ".zip" (detFilename d)

/-- Lines 303-315: the body-producing tail of cover.GET. The zip branch
redirects to the archive naming scheme; otherwise read_image is attempted
and an OSError is answered with a bare web.notfound() (the placeholder
helper is not consulted on this path). -/
def serveBody (env : Env) (d : Details) (size : SizeClass) (cache : CacheHdr)
    (etag : Option String) (lastmod : Option DT) : Except ParseError Response :=
  if zipRedirectCond d then
    .ok (.found (env.archiveCoverUrl (detId d) size.str env.protocol))
  else
    match env.readImage d size.str with
    | .error _ => .ok .notfoundBare
    | .ok bytes => .ok (.image cache etag lastmod bytes)

/-- cover.GET from line 265 on, once the key has been resolved: value is
the numeric id (none when resolution failed or the id string is junk,
both falsy paths), keyIsId records whether the request was keyed by the
immutable id. Stages in source order: deny-list, cluster redirect, dense
tar redirect, get_details, then the cache/validator logic of lines
289-301 and the serving tail. -/
def coverGET (env : Env) (keyIsId : Bool) (value : Option Nat) (size : SizeClass)
    (ctx : Ctx) : Except ParseError Response :=
  match value with
  | none => .ok (notfoundResp env.cfg ctx.idefault)
  | some v =>
    if blockedCond env.cfg v then .ok (notfoundResp env.cfg ctx.idefault)
    else if clusterCond env.cfg v size then
      .ok (.found (env.protocol ++ zipviewTail v size))
    else if denseCond v then
      .ok (.found (env.protocol ++ denseTarTail v size))
    else
      match get_details env v size.lower with
      | .error e => .error e
      | .ok none => .ok (notfoundResp env.cfg ctx.idefault)
      | .ok (some d) =>
        if keyIsId then
          if webModified ctx.ifNoneMatch ctx.ifModifiedSince
              (trim_microsecond (detCreated d)) (etagStr (detId d) size) = false then
            .ok .notmodified
          else
            serveBody env d size .forever (some (etagStr (detId d) size))
              (some (trim_microsecond (detCreated d)))
        else serveBody env d size .tenMinutes none none

/-- True exactly on the outcomes that touch local blob storage: an image
body read from the local tier, or the bare 404 its OSError handler
raises. -/
def isLocalResponse : Except ParseError Response → Bool
  | .ok (.image _ _ _ _) => true
  | .ok .notfoundBare => true
  | _ => false

/-! ## The query endpoint limit (code.py lines 431-445) -/

/-- Parse a Python-style integer literal with an optional leading minus. -/
def pyToInt (s : String) : Option Int :=
  match s.data with
  | '-' :: rest => (parseNat rest).map (fun n => -(n : Int))
  | cs => (parseNat cs).map (fun n => (n : Int))

/-- Modelled from the spec: safeint lives in openlibrary.coverstore.utils,
which is not under src/; per the spec a missing or non-integer limit
defaults (int(value) on success, the default on any parse failure). The
none case is the web.input default of 10 for an absent parameter. -/
def safeint (x : Option String) (d : Int) : Int :=
  match x with
  | none => d
  | some s => (pyToInt s).getD d

/-- query.GET lines 437-441: limit = safeint(i.limit, 10), then clamp
values above 100 down to exactly 100. -/
def queryLimit (ilimit : Option String) : Int :=
  let limit := safeint ilimit 10
  if limit > 100 then 100 else limit

/-! ## Index artifact records for the round-trip claim -/

/-- One logical index record: an object id with its byte offset and
length inside the shard archive. -/
structure IndexRec where
  id : Nat
  off : Nat
  len : Nat
deriving DecidableEq, Repr

/-- A record the artifact format can carry faithfully: the id fits the
ten-digit zero-padded name and offset and length fit the unsigned 64-bit
array cells. -/
def wfRec (r : IndexRec) : Prop :=
  r.id < 10 ^ 10 ∧ r.off < 2 ^ 64 ∧ r.len < 2 ^ 64

/-- The ".jpg" suffix of the name field of an index line. -/
def jpgChars : List Char := ['.', 'j', 'p', 'g']

/-- Write one index record as a line of the artifact:
<10-digit zero-padded id>.jpg<TAB><offset><TAB><length>. -/
def encodeRec (r : IndexRec) : List Char :=
  (zpadC 10 r.id ++ jpgChars) ++ '\t' :: (natDigits r.off ++ '\t' :: natDigits r.len)

/-- Apply a list of records to the arrays in order (what parsing their
encoded lines does). -/
def applyAll : TarTable → List IndexRec → TarTable
  | t, [] => t
  | t, r :: rs => applyAll (applyRec t (r.id, r.off, r.len)) rs

/-! ## Concrete environments for witnesses and counterexamples -/

/-- An empty configuration: nothing blocked, no cluster cutover, no
placeholder image configured. -/
def cfgEmpty : Config := ⟨[], 0, none⟩

/-- A read that always succeeds with a fixed body. -/
def readOkIMG : Details → String → Except Unit String := fun _ _ => .ok "IMG"

/-- A read that always raises OSError. -/
def readErr : Details → String → Except Unit String := fun _ _ => .error ()

/-- An external archive URL scheme stub (never reached in the scenarios
that use it). -/
def archiveUrl0 : Nat → String → String → String := fun _ _ _ => "archive-url"

/-- A request context with no conditional-GET validators and the default
default parameter. -/
def ctxPlain : Ctx := ⟨"true", none, none⟩

/-- C1 witness environment: empty configuration over arbitrary stores. -/
def envC1 : Env := ⟨cfgEmpty, fun _ => none, fun _ => none, readOkIMG, archiveUrl0, "https"⟩

/-- C2: a metadata row for id 100, distinct from any fast-path storage. -/
def recC2 : CoverRecord := ⟨100, ⟨100, 0⟩, ⟨100, 0⟩, false, "row100.jpg"⟩

/-- C2: a filesystem holding the original-size (unprefixed) index artifact
of shard 0 with a record at slot 100. -/
def fsC2 : String → Option (List (List Char)) := fun p =>
  if p = "items/covers_0000/covers_0000_00.index" then
    some [("0000000100.jpg\t5000\t300").data]
  else none

/-- C2 environment: both the shard index and the metadata store can answer
for id 100, exposing which one get_details consults. -/
def envC2 : Env :=
  ⟨cfgEmpty, fsC2, fun i => if i = 100 then some recC2 else none, readOkIMG, archiveUrl0,
   "https"⟩

/-- C3: a record whose created and last_modified stamps differ. -/
def recC3a : CoverRecord := ⟨7000000, ⟨100, 0⟩, ⟨500, 0⟩, false, "c3.jpg"⟩

/-- C3: same id and same last_modified as recC3a, different created. -/
def recC3b : CoverRecord := ⟨7000000, ⟨300, 0⟩, ⟨500, 0⟩, false, "c3.jpg"⟩

/-- C3 environment around recC3a. -/
def envC3a : Env :=
  ⟨cfgEmpty, fun _ => none, fun i => if i = 7000000 then some recC3a else none, readOkIMG,
   archiveUrl0, "https"⟩

/-- C3 environment around recC3b. -/
def envC3b : Env :=
  ⟨cfgEmpty, fun _ => none, fun i => if i = 7000000 then some recC3b else none, readOkIMG,
   archiveUrl0, "https"⟩

/-- C3: a context presenting If-Modified-Since equal to the created stamp
of recC3a, so the computed validator matches. -/
def ctxC3nm : Ctx := ⟨"true", none, some ⟨100, 0⟩⟩

/-- C4 environment: empty configuration. -/
def envC4 : Env := ⟨cfgEmpty, fun _ => none, fun _ => none, readOkIMG, archiveUrl0, "https"⟩

/-- C5: a filesystem whose small-size index artifact for shard 1 holds a
single malformed line (no tab-separated fields). -/
def fsC5 : String → Option (List (List Char)) := fun p =>
  if p = "items/s_covers_0000/s_covers_0000_01.index" then some [("garbage").data]
  else none

/-- C5: a metadata row for id 12345 that the fallback would serve if the
parse failure were treated as absent. -/
def recC5 : CoverRecord := ⟨12345, ⟨100, 0⟩, ⟨100, 0⟩, false, "row12345.jpg"⟩

/-- C5 environment: malformed index present, metadata fallback available. -/
def envC5 : Env :=
  ⟨cfgEmpty, fsC5, fun i => if i = 12345 then some recC5 else none, readOkIMG, archiveUrl0,
   "https"⟩

/-- C6: a metadata row for id 7000000 whose bytes will fail to read. -/
def recC6 : CoverRecord := ⟨7000000, ⟨100, 0⟩, ⟨100, 0⟩, false, "c6.jpg"⟩

/-- C6 environment: a placeholder image is configured, the row exists, and
reading its bytes raises OSError. -/
def envC6 : Env :=
  ⟨⟨[], 0, some "static/images/default.jpg"⟩, fun _ => none,
   fun i => if i = 7000000 then some recC6 else none, readErr, archiveUrl0, "https"⟩

/-- C7 environment: id 5 is on the deny-list; nothing else resolves. -/
def envC7 : Env :=
  ⟨⟨[5], 0, some "static/images/default.jpg"⟩, fun _ => none, fun _ => none, readOkIMG,
   archiveUrl0, "https"⟩

/-- C8 witness: an earlier record on a different slot. -/
def recC8a : IndexRec := ⟨100, 1, 2⟩

/-- C8 witness: the probed record. -/
def recC8b : IndexRec := ⟨12345, 5000, 3000⟩

/-- C8 witness: a later record on a different slot. -/
def recC8c : IndexRec := ⟨2346, 7, 8⟩

/-- Decidable equality on Except values, for evaluating the model at
concrete inputs. -/
instance {ε α : Type} [DecidableEq ε] [DecidableEq α] : DecidableEq (Except ε α) :=
  fun x y =>
    match x, y with
    | .ok a, .ok b =>
      if h : a = b then isTrue (by rw [h])
      else isFalse (by intro e; injection e; contradiction)
    | .error a, .error b =>
      if h : a = b then isTrue (by rw [h])
      else isFalse (by intro e; injection e; contradiction)
    | .ok _, .error _ => isFalse (by intro e; injection e)
    | .error _, .ok _ => isFalse (by intro e; injection e)

/-- Decidability of record well-formedness, for concrete witnesses. -/
instance (r : IndexRec) : Decidable (wfRec r) :=
  inferInstanceAs (Decidable (r.id < 10 ^ 10 ∧ r.off < 2 ^ 64 ∧ r.len < 2 ^ 64))

/-! ## Theorems -/

/-- When the deny-list, cluster and dense-tar stages all decline, cover.GET
continues with the get_details lookup and the caching logic. -/
theorem coverGET_after_stages (env : Env) (keyIsId : Bool) (v : Nat)
    (size : SizeClass) (ctx : Ctx)
    (hb : blockedCond env.cfg v = false)
    (hc : clusterCond env.cfg v size = false)
    (hd : denseCond v = false) :
    coverGET env keyIsId (some v) size ctx =
      match get_details env v size.lower with
      | .error e => .error e
      | .ok none => .ok (notfoundResp env.cfg ctx.idefault)
      | .ok (some d) =>
        if keyIsId then
          if webModified ctx.ifNoneMatch ctx.ifModifiedSince
              (trim_microsecond (detCreated d)) (etagStr (detId d) size) = false then
            .ok .notmodified
          else
            serveBody env d size .forever (some (etagStr (detId d) size))
              (some (trim_microsecond (detCreated d)))
        else serveBody env d size .tenMinutes none none := by
  unfold coverGET
  dsimp only
  rw [hb, hc, hd]
  simp

/-- A deny-list hit short-circuits to the notfound() helper. -/
theorem coverGET_blocked (env : Env) (keyIsId : Bool) (v : Nat)
    (size : SizeClass) (ctx : Ctx) (hb : blockedCond env.cfg v = true) :
    coverGET env keyIsId (some v) size ctx = .ok (notfoundResp env.cfg ctx.idefault) := by
  unfold coverGET
  dsimp only
  rw [hb]
  simp

/-- In the dense-tar range with the earlier stages declining, cover.GET is
the archive.org tar redirect, whatever the index filesystem, metadata
store or reader hold. -/
theorem coverGET_dense (env : Env) (keyIsId : Bool) (v : Nat) (size : SizeClass)
    (ctx : Ctx) (h1 : 8000000 ≤ v) (h2 : v < 8820000)
    (hb : blockedCond env.cfg v = false)
    (hc : clusterCond env.cfg v size = false) :
    coverGET env keyIsId (some v) size ctx =
      .ok (.found (env.protocol ++ denseTarTail v size)) := by
  have hd : denseCond v = true := by simp [denseCond, h1, h2]
  unfold coverGET
  dsimp only
  rw [hb, hc, hd]
  simp

/-- The notfound() helper never yields a local-tier outcome. -/
theorem isLocalResponse_notfoundResp (cfg : Config) (s : String) :
    isLocalResponse (.ok (notfoundResp cfg s)) = false := by
  unfold notfoundResp
  cases cfg.default_image <;> split_ifs <;> rfl

/-- When the zip branch declines and the read succeeds, serveBody is the
image body with the given headers. -/
theorem serveBody_ok (env : Env) (d : Details) (size : SizeClass) (cache : CacheHdr)
    (etag : Option String) (lastmod : Option DT) (B : String)
    (hz : zipRedirectCond d = false)
    (hr : env.readImage d size.str = .ok B) :
    serveBody env d size cache etag lastmod = .ok (.image cache etag lastmod B) := by
  unfold serveBody
  rw [hz]
  simp
  rw [hr]

/-- When the zip branch declines and the read raises OSError, serveBody is
the bare web.notfound(). -/
theorem serveBody_oserror (env : Env) (d : Details) (size : SizeClass)
    (cache : CacheHdr) (etag : Option String) (lastmod : Option DT)
    (hz : zipRedirectCond d = false)
    (hr : env.readImage d size.str = .error ()) :
    serveBody env d size cache etag lastmod = .ok .notfoundBare := by
  unfold serveBody
  rw [hz]
  simp
  rw [hr]

/-- Claim C9: for every non-negative id, the shard decomposition satisfies
shardId * 10000 + slot == id, with shardId = id / 10000 and
slot = id % 10000 as get_tar_filename computes them. -/
theorem claimC9_shard_decomposition :
    ∀ id : Nat, (resolveShard id).1 * 10000 + (resolveShard id).2 = id := by
  intro id
  simpa [resolveShard, Nat.mul_comm] using Nat.div_add_mod id 10000

/-- Claim C10: the limit the query endpoint passes to the database never
exceeds 100; a parsed limit above 100 is clamped to exactly 100; a missing
or non-integer limit defaults to 10. -/
theorem claimC10_limit_clamp :
    (∀ x : Option String, queryLimit x ≤ 100) ∧
    (∀ (s : String) (n : Int), pyToInt s = some n → 100 < n →
      queryLimit (some s) = 100) ∧
    queryLimit none = 10 ∧
    (∀ s : String, pyToInt s = none → queryLimit (some s) = 10) := by
  refine ⟨fun x => ?_, fun s n hp hn => ?_, rfl, fun s hp => ?_⟩
  · have h : queryLimit x = if safeint x 10 > 100 then 100 else safeint x 10 := rfl
    rw [h]
    split
    · exact le_refl 100
    · omega
  · have h : queryLimit (some s) =
        if (pyToInt s).getD 10 > 100 then 100 else (pyToInt s).getD 10 := rfl
    rw [h, hp]
    simp only [Option.getD_some]
    rw [if_pos hn]
  · have h : queryLimit (some s) =
        if (pyToInt s).getD 10 > 100 then 100 else (pyToInt s).getD 10 := rfl
    rw [h, hp]
    rfl

/-- Witness for claim C10 at concrete inputs: the limit 250 parses above
100 and is clamped to 100, and the junk limit "abc" falls back to 10. -/
theorem claimC10_limit_clamp_witness :
    queryLimit (some "250") = 100 ∧ queryLimit (some "abc") = 10 :=
  ⟨claimC10_limit_clamp.2.1 "250" 250 (by decide) (by decide),
   claimC10_limit_clamp.2.2.2 "abc" (by decide)⟩

/-- Claim C1: for every id in the legacy dense-tar range
[8_000_000, 8_820_000), once the preceding stages (deny-list hit, cluster
redirect) decline, the request resolves to the archive.org tar redirect
built by the fixed-width naming convention, whatever the local shard index
filesystem holds (env, and with it env.fs, is arbitrary); and over every
configuration, an id in the range never produces a local-tier outcome. -/
theorem claimC1_dense_range_remote :
    (∀ (env : Env) (keyIsId : Bool) (v : Nat) (size : SizeClass) (ctx : Ctx),
      8000000 ≤ v → v < 8820000 →
      blockedCond env.cfg v = false → clusterCond env.cfg v size = false →
      coverGET env keyIsId (some v) size ctx =
        .ok (.found (env.protocol ++ denseTarTail v size))) ∧
    (∀ (env : Env) (keyIsId : Bool) (v : Nat) (size : SizeClass) (ctx : Ctx),
      8000000 ≤ v → v < 8820000 →
      isLocalResponse (coverGET env keyIsId (some v) size ctx) = false) := by
  constructor
  · intro env keyIsId v size ctx h1 h2 hb hc
    exact coverGET_dense env keyIsId v size ctx h1 h2 hb hc
  · intro env keyIsId v size ctx h1 h2
    cases hb : blockedCond env.cfg v with
    | true =>
      rw [coverGET_blocked env keyIsId v size ctx hb]
      exact isLocalResponse_notfoundResp _ _
    | false =>
      cases hc : clusterCond env.cfg v size with
      | true =>
        unfold coverGET
        dsimp only
        rw [hb, hc]
        simp [isLocalResponse]
      | false =>
        rw [coverGET_dense env keyIsId v size ctx h1 h2 hb hc]
        rfl

/-- Witness for claim C1 at id 8123456 with size M over the empty
configuration: the request is the archive.org tar redirect and is not a
local-tier outcome. -/
theorem claimC1_dense_range_remote_witness :
    coverGET envC1 true (some 8123456) SizeClass.M ctxPlain =
      .ok (.found (envC1.protocol ++ denseTarTail 8123456 SizeClass.M)) ∧
    isLocalResponse (coverGET envC1 true (some 8123456) SizeClass.M ctxPlain) = false :=
  ⟨claimC1_dense_range_remote.1 envC1 true 8123456 SizeClass.M ctxPlain
      (by decide) (by decide) (by decide) (by decide),
   claimC1_dense_range_remote.2 envC1 true 8123456 SizeClass.M ctxPlain
      (by decide) (by decide)⟩

/-- Claim C7: a request for a deny-listed id gets exactly the response of a
request for an id that resolves nowhere (no earlier redirect stage, no
shard-index hit, no metadata row): both are the notfound() helper outcome,
so a caller cannot tell a blocked id from a nonexistent one. -/
theorem claimC7_blocked_indistinguishable :
    ∀ (env : Env) (keyIsId : Bool) (size : SizeClass) (ctx : Ctx) (vb vn : Nat),
      blockedCond env.cfg vb = true →
      blockedCond env.cfg vn = false →
      clusterCond env.cfg vn size = false →
      denseCond vn = false →
      get_details env vn size.lower = .ok none →
      coverGET env keyIsId (some vb) size ctx = coverGET env keyIsId (some vn) size ctx := by
  intro env keyIsId size ctx vb vn hbb hbn hcn hdn hget
  rw [coverGET_blocked env keyIsId vb size ctx hbb,
    coverGET_after_stages env keyIsId vn size ctx hbn hcn hdn, hget]

/-- Witness for claim C7: with id 5 deny-listed, its response coincides
with the response for the never-issued id 7000000. -/
theorem claimC7_blocked_indistinguishable_witness :
    coverGET envC7 true (some 5) SizeClass.M ctxPlain =
      coverGET envC7 true (some 7000000) SizeClass.M ctxPlain :=
  claimC7_blocked_indistinguishable envC7 true SizeClass.M ctxPlain 5 7000000
    (by decide) (by decide) (by decide) (by decide) rfl

/-- Counterexample to claim C2: for id 100 with the Original size class
(empty size string) the shard-index fast path is attempted and answers the
request, because the guard size in "sml" is a Python substring test that
the empty string satisfies; resolution does not go to the metadata store,
whose row for id 100 differs from the fast-path storage. -/
theorem claimC2_counterexample :
    localFastPath 100 "" = true ∧
    get_details envC2 100 "" =
      .ok (some (.tarDetails 100 "filename" "covers_0000_00.tar:5000:300")) ∧
    get_details envC2 100 "" ≠ .ok ((envC2.db 100).map Details.dbDetails) := by
  refine ⟨rfl, rfl, ?_⟩
  decide

/-- Counterexample to claim C4: for id 8,500,000 the router redirects into
item covers_0008 with tar covers_0008_50.tar (the zero-padded id is
0008500000, so the first four digits are 0008 and digits five and six are
50), not into item covers_8500 with tar covers_8500_00.tar as claimed. -/
theorem claimC4_counterexample :
    coverGET envC4 true (some 8500000) SizeClass.Orig ctxPlain =
      .ok (.found "https://archive.org/download/covers_0008/covers_0008_50.tar/0008500000.jpg") ∧
    ("https://archive.org/download/covers_0008/covers_0008_50.tar/0008500000.jpg" : String) ≠
      "https://archive.org/download/covers_8500/covers_8500_00.tar/0008500000.jpg" := by
  refine ⟨rfl, ?_⟩
  decide

/-- Counterexample to claim C5: a present shard index artifact whose single
line has no tab separators makes get_tar_index raise (not answer Absent),
and the failure propagates out of the whole request as a hard error
instead of degrading to the available metadata-store fallback row. -/
theorem claimC5_counterexample :
    get_tar_index fsC5 1 "s" = .error .badFieldCount ∧
    coverGET envC5 true (some 12345) SizeClass.S ctxPlain = .error .badFieldCount :=
  ⟨rfl, rfl⟩

/-- Counterexample to claim C6: with a placeholder image configured, an
OSError while reading the blob bytes of an existing record produces the
bare web.notfound() response, which is not the placeholder response every
other not-found request gets. -/
theorem claimC6_counterexample :
    coverGET envC6 false (some 7000000) SizeClass.M ctxPlain = .ok .notfoundBare ∧
    notfoundResp envC6.cfg ctxPlain.idefault =
      .placeholderImage "static/images/default.jpg" ∧
    Response.notfoundBare ≠ Response.placeholderImage "static/images/default.jpg" := by
  refine ⟨rfl, rfl, ?_⟩
  decide

/-- Counterexample to claim C3: two id-keyed requests for records agreeing
on (id, sizeClass, lastModifiedAt) and differing only in createdAt carry
different Last-Modified validators, so the conditional-GET validator is
not derived from (id, sizeClass, lastModifiedAt); it is derived from
createdAt (trimmed to whole seconds). -/
theorem claimC3_counterexample :
    coverGET envC3a true (some 7000000) SizeClass.M ctxPlain =
      .ok (.image .forever (some "7000000-m") (some ⟨100, 0⟩) "IMG") ∧
    coverGET envC3b true (some 7000000) SizeClass.M ctxPlain =
      .ok (.image .forever (some "7000000-m") (some ⟨300, 0⟩) "IMG") ∧
    (envC3a.db 7000000).map CoverRecord.last_modified =
      (envC3b.db 7000000).map CoverRecord.last_modified ∧
    (⟨100, 0⟩ : DT) ≠ (⟨300, 0⟩ : DT) := by
  refine ⟨rfl, rfl, rfl, ?_⟩
  decide

/-! ### Decimal digit and parsing lemmas for the index artifact format -/

/-- The value of a digit character produced by Nat.digitChar. -/
theorem digitVal_digitChar (n : Nat) (h : n < 10) : digitVal (Nat.digitChar n) = n := by
  interval_cases n <;> rfl

/-- Nat.digitChar of a value below ten is a digit character. -/
theorem digitChar_isDigit (n : Nat) (h : n < 10) : (Nat.digitChar n).isDigit = true := by
  interval_cases n <;> rfl

/-- The digit expansion with sufficient fuel is nonempty, all digits, and
folds back (with any accumulator) to the original number. -/
theorem natDigitsAux_spec :
    ∀ (fuel n : Nat), n < fuel →
      natDigitsAux fuel n ≠ [] ∧
      (∀ c ∈ natDigitsAux fuel n, c.isDigit = true) ∧
      ∀ a : Nat, (natDigitsAux fuel n).foldl (fun x c => x * 10 + digitVal c) a =
        a * 10 ^ (natDigitsAux fuel n).length + n := by
  intro fuel
  induction fuel with
  | zero => intro n h; omega
  | succ fuel ih =>
    intro n h
    by_cases h10 : n < 10
    · unfold natDigitsAux
      rw [if_pos h10]
      refine ⟨by simp, ?_, ?_⟩
      · intro c hc
        rw [List.mem_singleton] at hc
        subst hc
        exact digitChar_isDigit n h10
      · intro a
        rw [List.foldl_cons, List.foldl_nil, List.length_singleton, pow_one,
          digitVal_digitChar n h10]
    · unfold natDigitsAux
      rw [if_neg h10]
      have hlt : n / 10 < fuel := by
        have := Nat.div_lt_self (by omega : 0 < n) (by omega : 1 < 10)
        omega
      obtain ⟨hne, hdig, hfold⟩ := ih (n / 10) hlt
      refine ⟨by simp, ?_, ?_⟩
      · intro c hc
        rw [List.mem_append] at hc
        rcases hc with hc | hc
        · exact hdig c hc
        · rw [List.mem_singleton] at hc
          subst hc
          exact digitChar_isDigit _ (Nat.mod_lt n (by omega))
      · intro a
        rw [List.foldl_append, hfold a, List.foldl_cons, List.foldl_nil,
          List.length_append, List.length_singleton,
          digitVal_digitChar _ (Nat.mod_lt n (by omega)), pow_succ, ← Nat.mul_assoc]
        generalize a * 10 ^ (natDigitsAux fuel (n / 10)).length = A
        omega

/-- The digit expansion of any number is nonempty. -/
theorem natDigits_ne_nil (n : Nat) : natDigits n ≠ [] :=
  (natDigitsAux_spec (n + 1) n (Nat.lt_succ_self n)).1

/-- Every character of the digit expansion is a digit. -/
theorem natDigits_all_digit (n : Nat) : ∀ c ∈ natDigits n, c.isDigit = true :=
  (natDigitsAux_spec (n + 1) n (Nat.lt_succ_self n)).2.1

/-- Folding the digit expansion accumulates the original number. -/
theorem natDigits_foldl (n a : Nat) :
    (natDigits n).foldl (fun x c => x * 10 + digitVal c) a =
      a * 10 ^ (natDigits n).length + n :=
  (natDigitsAux_spec (n + 1) n (Nat.lt_succ_self n)).2.2 a

/-- Parsing the printed digits of a number gives the number back. -/
theorem parseNat_natDigits (n : Nat) : parseNat (natDigits n) = some n := by
  unfold parseNat
  rw [if_pos ⟨natDigits_ne_nil n, List.all_eq_true.mpr (natDigits_all_digit n)⟩,
    natDigits_foldl n 0, Nat.zero_mul, Nat.zero_add]

/-- Folding leading zeros from a zero accumulator stays at zero. -/
theorem foldl_replicate_zero (k : Nat) :
    (List.replicate k '0').foldl (fun a c => a * 10 + digitVal c) 0 = 0 := by
  induction k with
  | zero => rfl
  | succ k ih =>
    rw [List.replicate_succ, List.foldl_cons]
    have h0 : 0 * 10 + digitVal '0' = 0 := by decide
    rw [h0]
    exact ih

/-- Parsing a zero-padded number gives the number back: the leading zeros
contribute nothing to the folded value. -/
theorem parseNat_zpadC (w n : Nat) : parseNat (zpadC w n) = some n := by
  unfold parseNat zpadC
  rw [if_pos]
  · rw [List.foldl_append, foldl_replicate_zero, natDigits_foldl n 0, Nat.zero_mul,
      Nat.zero_add]
  · refine ⟨by simp [natDigits_ne_nil n], List.all_eq_true.mpr ?_⟩
    intro c hc
    rw [List.mem_append] at hc
    rcases hc with hc | hc
    · rw [List.eq_of_mem_replicate hc]
      decide
    · exact natDigits_all_digit n c hc

/-- The digit expansion of n < 10^k has at most k digits. -/
theorem natDigitsAux_length_le :
    ∀ (fuel n k : Nat), n < fuel → n < 10 ^ k → 1 ≤ k →
      (natDigitsAux fuel n).length ≤ k := by
  intro fuel
  induction fuel with
  | zero => intro n k h; omega
  | succ fuel ih =>
    intro n k h hk h1
    by_cases h10 : n < 10
    · unfold natDigitsAux
      rw [if_pos h10, List.length_singleton]
      exact h1
    · unfold natDigitsAux
      rw [if_neg h10, List.length_append, List.length_singleton]
      have hk2 : 2 ≤ k := by
        rcases Nat.lt_or_ge k 2 with hlt | hge
        · exfalso
          have hk1 : k = 1 := by omega
          subst hk1
          rw [pow_one] at hk
          omega
        · exact hge
      have hdiv : n / 10 < fuel := by
        have := Nat.div_lt_self (by omega : 0 < n) (by omega : 1 < 10)
        omega
      have hbound : n / 10 < 10 ^ (k - 1) := by
        rw [Nat.div_lt_iff_lt_mul (by omega : 0 < 10), ← pow_succ]
        have hkk : k - 1 + 1 = k := by omega
        rw [hkk]
        exact hk
      have := ih (n / 10) (k - 1) hdiv hbound (by omega)
      omega

/-- Length bound transported to natDigits. -/
theorem natDigits_length_le (n k : Nat) (h : n < 10 ^ k) (h1 : 1 ≤ k) :
    (natDigits n).length ≤ k :=
  natDigitsAux_length_le (n + 1) n k (Nat.lt_succ_self n) h h1

/-- The zero-padded expansion of n < 10^w has exactly w characters. -/
theorem zpadC_length (w n : Nat) (h : n < 10 ^ w) (h1 : 1 ≤ w) :
    (zpadC w n).length = w := by
  unfold zpadC
  rw [List.length_append, List.length_replicate]
  have := natDigits_length_le n w h h1
  omega

/-- A digit character differs from any non-digit character. -/
theorem char_ne_of_isDigit {c x : Char} (h : c.isDigit = true)
    (hx : x.isDigit = false) : c ≠ x := by
  intro e
  subst e
  rw [h] at hx
  cases hx

/-- Digit characters are not Python whitespace. -/
theorem pyIsSpace_false_of_isDigit (c : Char) (h : c.isDigit = true) :
    pyIsSpace c = false := by
  have hs := char_ne_of_isDigit h (by decide : (' ').isDigit = false)
  have ht := char_ne_of_isDigit h (by decide : ('\t').isDigit = false)
  have hn := char_ne_of_isDigit h (by decide : ('\n').isDigit = false)
  have hr := char_ne_of_isDigit h (by decide : ('\r').isDigit = false)
  have hv := char_ne_of_isDigit h (by decide : ('\x0b').isDigit = false)
  have hf := char_ne_of_isDigit h (by decide : ('\x0c').isDigit = false)
  simp [pyIsSpace, beq_eq_false_iff_ne, hs, ht, hn, hr, hv, hf]

/-- Digit characters are not the tab separator. -/
theorem ne_tab_of_isDigit (c : Char) (h : c.isDigit = true) : c ≠ '\t' :=
  char_ne_of_isDigit h (by decide)

/-- Stripping leaves a line alone when both end characters are not
whitespace. -/
theorem pyStrip_id (c b : Char) (mid : List Char)
    (hc : pyIsSpace c = false) (hb : pyIsSpace b = false) :
    pyStrip (c :: (mid ++ [b])) = c :: (mid ++ [b]) := by
  unfold pyStrip
  rw [List.dropWhile_cons_of_neg (by rw [hc]; exact Bool.false_ne_true)]
  have hrev : (c :: (mid ++ [b])).reverse = b :: (mid.reverse ++ [c]) := by
    simp
  rw [hrev, List.dropWhile_cons_of_neg (by rw [hb]; exact Bool.false_ne_true), ← hrev,
    List.reverse_reverse]

/-- The cons-step equation of splitTabs, for rewriting. -/
theorem splitTabs_cons_eq (c : Char) (cs : List Char) :
    splitTabs (c :: cs) =
      if c = '\t' then [] :: splitTabs cs
      else
        match splitTabs cs with
        | [] => [[c]]
        | g :: gs => (c :: g) :: gs := by
  rw [splitTabs]

/-- Splitting a tab-free line yields it as the single field. -/
theorem splitTabs_no_tab (xs : List Char) (h : ∀ c ∈ xs, c ≠ '\t') :
    splitTabs xs = [xs] := by
  induction xs with
  | nil => rfl
  | cons c cs ih =>
    rw [splitTabs_cons_eq, if_neg (h c (by simp)),
      ih (fun x hx => h x (by simp [hx]))]

/-- Splitting past a tab-free field peels it off before the separator. -/
theorem splitTabs_append (a rest : List Char) (ha : ∀ c ∈ a, c ≠ '\t') :
    splitTabs (a ++ '\t' :: rest) = a :: splitTabs rest := by
  induction a with
  | nil =>
    show splitTabs ('\t' :: rest) = [] :: splitTabs rest
    rw [splitTabs_cons_eq, if_pos rfl]
  | cons c a' ih =>
    show splitTabs (c :: (a' ++ '\t' :: rest)) = (c :: a') :: splitTabs rest
    rw [splitTabs_cons_eq, if_neg (ha c (by simp)),
      ih (fun x hx => ha x (by simp [hx]))]


/-- A well-formed line splits into its three fields. -/
theorem splitTabs_three (name off sz : List Char)
    (hn : ∀ c ∈ name, c ≠ '\t') (ho : ∀ c ∈ off, c ≠ '\t')
    (hs : ∀ c ∈ sz, c ≠ '\t') :
    splitTabs (name ++ '\t' :: (off ++ '\t' :: sz)) = [name, off, sz] := by
  rw [splitTabs_append _ _ hn, splitTabs_append _ _ ho, splitTabs_no_tab _ hs]

/-- Every character of a zero-padded number is a digit. -/
theorem zpadC_all_digit (w n : Nat) : ∀ c ∈ zpadC w n, c.isDigit = true := by
  intro c hc
  unfold zpadC at hc
  rw [List.mem_append] at hc
  rcases hc with hc | hc
  · rw [List.eq_of_mem_replicate hc]
    decide
  · exact natDigits_all_digit n c hc

/-- A zero-padded number starts with a digit character. -/
theorem zpadC_head (w n : Nat) :
    ∃ c cs, zpadC w n = c :: cs ∧ c.isDigit = true := by
  unfold zpadC
  cases hk : w - (natDigits n).length with
  | zero =>
    rw [List.replicate_zero, List.nil_append]
    cases hd : natDigits n with
    | nil => exact absurd hd (natDigits_ne_nil n)
    | cons c cs =>
      exact ⟨c, cs, rfl, natDigits_all_digit n c (by rw [hd]; simp)⟩
  | succ k =>
    rw [List.replicate_succ, List.cons_append]
    exact ⟨'0', List.replicate k '0' ++ natDigits n, rfl, by decide⟩

/-- The digit expansion ends in a digit character. -/
theorem natDigits_concat (n : Nat) :
    ∃ ys b, natDigits n = ys ++ [b] ∧ b.isDigit = true := by
  cases hd : (natDigits n).reverse with
  | nil =>
    have h0 := congrArg List.reverse hd
    rw [List.reverse_reverse] at h0
    exact absurd h0 (natDigits_ne_nil n)
  | cons b ys =>
    have h1 : natDigits n = ys.reverse ++ [b] := by
      have h0 := congrArg List.reverse hd
      rw [List.reverse_reverse] at h0
      rw [h0]
      simp
    exact ⟨ys.reverse, b, h1, natDigits_all_digit n b (by rw [h1]; simp)⟩

/-- Parsing the encoded line of a well-formed record yields exactly that
record: the strip is the identity (digit characters bound the line), the
tab split recovers the three fields, int(name[:10]) reads the ten-digit
zero-padded id, and the two numbers fit in the array cells. -/
theorem parseLine_encodeRec (r : IndexRec) (h : wfRec r) :
    parseLine (encodeRec r) = .ok (some (r.id, r.off, r.len)) := by
  obtain ⟨hid, hoff, hlen⟩ := h
  obtain ⟨c, cs, hczp, hcdig⟩ := zpadC_head 10 r.id
  obtain ⟨ys, b, hbnd, hbdig⟩ := natDigits_concat r.len
  have hshape : encodeRec r =
      c :: ((cs ++ jpgChars ++ '\t' :: (natDigits r.off ++ '\t' :: ys)) ++ [b]) := by
    rw [encodeRec, hczp, hbnd]
    simp
  have hstrip : pyStrip (encodeRec r) = encodeRec r := by
    rw [hshape]
    exact pyStrip_id c b _ (pyIsSpace_false_of_isDigit c hcdig)
      (pyIsSpace_false_of_isDigit b hbdig)
  have hne : encodeRec r ≠ [] := by
    rw [hshape]
    simp
  have hnt_name : ∀ x ∈ zpadC 10 r.id ++ jpgChars, x ≠ '\t' := by
    intro x hx
    rw [List.mem_append] at hx
    rcases hx with hx | hx
    · exact ne_tab_of_isDigit x (zpadC_all_digit 10 r.id x hx)
    · rw [jpgChars] at hx
      simp only [List.mem_cons, List.not_mem_nil, or_false] at hx
      rcases hx with rfl | rfl | rfl | rfl <;> decide
  have hnt_off : ∀ x ∈ natDigits r.off, x ≠ '\t' := fun x hx =>
    ne_tab_of_isDigit x (natDigits_all_digit r.off x hx)
  have hnt_len : ∀ x ∈ natDigits r.len, x ≠ '\t' := fun x hx =>
    ne_tab_of_isDigit x (natDigits_all_digit r.len x hx)
  have hsplit : splitTabs (encodeRec r) =
      [zpadC 10 r.id ++ jpgChars, natDigits r.off, natDigits r.len] := by
    rw [encodeRec]
    exact splitTabs_three _ _ _ hnt_name hnt_off hnt_len
  have htake : (zpadC 10 r.id ++ jpgChars).take 10 = zpadC 10 r.id :=
    List.take_left' (zpadC_length 10 r.id hid (by omega))
  unfold parseLine
  rw [hstrip, if_neg hne, hsplit]
  dsimp only
  rw [htake, parseNat_zpadC, parseNat_natDigits, parseNat_natDigits]
  dsimp only
  rw [if_pos ⟨hoff, hlen⟩]

/-- Parsing the encoded lines of well-formed records succeeds and builds
exactly the table obtained by applying the records in order. -/
theorem parseLines_encode (recs : List IndexRec) :
    ∀ t, (∀ r ∈ recs, wfRec r) →
      parseLines t (recs.map encodeRec) = .ok (applyAll t recs) := by
  induction recs with
  | nil => intro t _; rfl
  | cons r rs ih =>
    intro t h
    rw [List.map_cons]
    show parseLines t (encodeRec r :: rs.map encodeRec) = .ok (applyAll t (r :: rs))
    unfold parseLines
    rw [parseLine_encodeRec r (h r (by simp))]
    exact ih _ (fun x hx => h x (by simp [hx]))

/-- Applying a concatenation of record lists applies them in sequence. -/
theorem applyAll_append (l1 l2 : List IndexRec) :
    ∀ t, applyAll t (l1 ++ l2) = applyAll (applyAll t l1) l2 := by
  induction l1 with
  | nil => intro t; rfl
  | cons r rs ih =>
    intro t
    rw [List.cons_append]
    show applyAll (applyRec t (r.id, r.off, r.len)) (rs ++ l2) = _
    exact ih _

/-- Records on other slots leave a slot of the arrays untouched. -/
theorem applyAll_preserve (rs : List IndexRec) :
    ∀ (t : TarTable) (slot : Nat), (∀ r ∈ rs, r.id % 10000 ≠ slot) →
      (applyAll t rs).offsets slot = t.offsets slot ∧
      (applyAll t rs).sizes slot = t.sizes slot := by
  induction rs with
  | nil => intro t slot _; exact ⟨rfl, rfl⟩
  | cons r rs ih =>
    intro t slot h
    have hne : ¬ (slot = r.id % 10000) := fun e => h r (by simp) e.symm
    obtain ⟨h1, h2⟩ :=
      ih (applyRec t (r.id, r.off, r.len)) slot (fun x hx => h x (by simp [hx]))
    show (applyAll (applyRec t (r.id, r.off, r.len)) rs).offsets slot = _ ∧
      (applyAll (applyRec t (r.id, r.off, r.len)) rs).sizes slot = _
    rw [h1, h2]
    constructor
    · show (if slot = r.id % 10000 then r.off else t.offsets slot) = t.offsets slot
      rw [if_neg hne]
    · show (if slot = r.id % 10000 then r.len else t.sizes slot) = t.sizes slot
      rw [if_neg hne]

/-- Claim C8: writing well-formed index records as artifact lines, loading
the artifact and probing slot id % 10000 of a record with positive length
returns exactly its (offset, length), provided no later record occupies
the same slot — last-write-wins on duplicate slots, captured by letting
pre contain arbitrary earlier records (same slot included). -/
theorem claimC8_roundtrip (pre post : List IndexRec) (r : IndexRec)
    (hwf : ∀ s ∈ pre ++ r :: post, wfRec s)
    (hlen : 0 < r.len)
    (hlast : ∀ s ∈ post, s.id % 10000 ≠ r.id % 10000) :
    ∃ t, parse_tarindex ((pre ++ r :: post).map encodeRec) = .ok t ∧
      tarLookup t (r.id % 10000) = some (r.off, r.len) := by
  refine ⟨applyAll initTable (pre ++ r :: post), ?_, ?_⟩
  · exact parseLines_encode _ initTable hwf
  · rw [applyAll_append]
    show tarLookup (applyAll (applyRec (applyAll initTable pre) (r.id, r.off, r.len)) post)
      (r.id % 10000) = some (r.off, r.len)
    obtain ⟨h1, h2⟩ := applyAll_preserve post
      (applyRec (applyAll initTable pre) (r.id, r.off, r.len)) (r.id % 10000) hlast
    unfold tarLookup
    rw [h1, h2]
    have hoffv : (applyRec (applyAll initTable pre) (r.id, r.off, r.len)).offsets
        (r.id % 10000) = r.off := by
      show (if r.id % 10000 = r.id % 10000 then r.off else _) = r.off
      rw [if_pos rfl]
    have hlenv : (applyRec (applyAll initTable pre) (r.id, r.off, r.len)).sizes
        (r.id % 10000) = r.len := by
      show (if r.id % 10000 = r.id % 10000 then r.len else _) = r.len
      rw [if_pos rfl]
    rw [hoffv, hlenv, if_neg (by omega)]

/-- Witness for claim C8: three records with the middle one probed; the
later record lives on another slot and the probe returns (5000, 3000). -/
theorem claimC8_roundtrip_witness :
    ∃ t, parse_tarindex (([recC8a] ++ recC8b :: [recC8c]).map encodeRec) = .ok t ∧
      tarLookup t (recC8b.id % 10000) = some (recC8b.off, recC8b.len) :=
  claimC8_roundtrip [recC8a] [recC8c] recC8b (by decide) (by decide) (by decide)

/-- An unparsable line anywhere in the artifact makes the whole load an
uncaught exception, whatever table state has accumulated. -/
theorem parseLines_isErr (lines : List (List Char)) :
    ∀ (t : TarTable) (l : List Char), l ∈ lines → exceptOk (parseLine l) = false →
      exceptOk (parseLines t lines) = false := by
  induction lines with
  | nil => intro t l h; simp at h
  | cons x xs ih =>
    intro t l hmem hbad
    unfold parseLines
    cases hpl : parseLine x with
    | error e => rfl
    | ok o =>
      rcases List.mem_cons.mp hmem with he | hm
      · subst he
        rw [hpl] at hbad
        simp [exceptOk] at hbad
      · cases o with
        | none => exact ih t l hm hbad
        | some p => exact ih _ l hm hbad

/-- Claim C5 as amended: only a missing index artifact is treated as
absent; a present artifact with an unparsable line makes the load raise,
and the exception propagates through get_details and the whole request as
a hard failure instead of degrading to the metadata fallback. -/
theorem claimC5_amended :
    (∀ (fs : String → Option (List (List Char))) (tarindex : Nat) (size : String),
      fs (get_tarindex_path tarindex size) = none →
      get_tar_index fs tarindex size = .ok none) ∧
    (∀ (lines : List (List Char)) (l : List Char), l ∈ lines →
      exceptOk (parseLine l) = false →
      exceptOk (parse_tarindex lines) = false) ∧
    (∀ (env : Env) (coverid : Nat) (size : String) (e : ParseError),
      localFastPath coverid size = true →
      get_tar_filename env.fs coverid size = .error e →
      get_details env coverid size = .error e) ∧
    (∀ (env : Env) (keyIsId : Bool) (v : Nat) (size : SizeClass) (ctx : Ctx)
      (e : ParseError),
      blockedCond env.cfg v = false → clusterCond env.cfg v size = false →
      denseCond v = false →
      get_details env v size.lower = .error e →
      coverGET env keyIsId (some v) size ctx = .error e) := by
  refine ⟨fun fs tarindex size h => ?_, fun lines l hmem hbad => ?_,
    fun env coverid size e hfp hget => ?_,
    fun env keyIsId v size ctx e hb hc hd hget => ?_⟩
  · unfold get_tar_index
    rw [h]
  · unfold parse_tarindex
    exact parseLines_isErr lines initTable l hmem hbad
  · unfold get_details
    rw [hfp]
    simp
    rw [hget]
  · rw [coverGET_after_stages env keyIsId v size ctx hb hc hd, hget]

/-- Witness for the amended claim C5: the missing artifact is absent; the
malformed single-line artifact fails to parse; and for id 12345 at size S
the failure escapes get_details and the request as a hard error while the
metadata fallback row for 12345 exists. -/
theorem claimC5_amended_witness :
    get_tar_index (fun _ => none) 1 "s" = .ok none ∧
    exceptOk (parse_tarindex [("garbage").data]) = false ∧
    get_details envC5 12345 "s" = .error .badFieldCount ∧
    coverGET envC5 true (some 12345) SizeClass.S ctxPlain = .error .badFieldCount :=
  ⟨claimC5_amended.1 (fun _ => none) 1 "s" rfl,
   claimC5_amended.2.1 [("garbage").data] ("garbage").data (List.mem_singleton.mpr rfl)
     (by decide),
   claimC5_amended.2.2.1 envC5 12345 "s" .badFieldCount (by decide) rfl,
   claimC5_amended.2.2.2 envC5 true 12345 SizeClass.S ctxPlain .badFieldCount
     (by decide) (by decide) (by decide) rfl⟩

/-- Claim C2 as amended: the shard-index fast path is attempted exactly
under the source guard id < 6,000,000 and size in "sml", where the latter
is a substring test that the lowercased size strings "s", "m", "l" and the
empty Original size all satisfy; so Original with id < 6,000,000 does not
bypass the fast path. When the guard fails, resolution is exactly the
metadata-store lookup; when it holds and the index probe hits, resolution
is the fast-path storage. -/
theorem claimC2_amended :
    (∀ (env : Env) (coverid : Nat) (size : String),
      localFastPath coverid size = false →
      get_details env coverid size = .ok ((env.db coverid).map Details.dbDetails)) ∧
    (∀ coverid : Nat, coverid < 6000000 → localFastPath coverid "" = true) ∧
    (∀ (env : Env) (coverid : Nat) (size : String) (p : String),
      localFastPath coverid size = true →
      get_tar_filename env.fs coverid size = .ok (some p) →
      get_details env coverid size = .ok (some (.tarDetails coverid (fnameKey size) p))) := by
  refine ⟨fun env coverid size h => ?_, fun coverid h => ?_, fun env coverid size p hfp hget => ?_⟩
  · unfold get_details
    rw [h]
    simp
  · have he : pyInStr "" "sml" = true := by decide
    simp [localFastPath, he, h]
  · unfold get_details
    rw [hfp]
    simp
    rw [hget]

/-- Witness for the amended claim C2: id 6,000,000 fails the guard and goes
to the metadata store; id 100 with the Original size passes the guard and
its index hit answers the request. -/
theorem claimC2_amended_witness :
    get_details envC2 6000000 "m" = .ok ((envC2.db 6000000).map Details.dbDetails) ∧
    localFastPath 100 "" = true ∧
    get_details envC2 100 "" =
      .ok (some (.tarDetails 100 (fnameKey "") "covers_0000_00.tar:5000:300")) :=
  ⟨claimC2_amended.1 envC2 6000000 "m" (by decide),
   claimC2_amended.2.1 100 (by decide),
   claimC2_amended.2.2 envC2 100 "" "covers_0000_00.tar:5000:300" (by decide) rfl⟩

/-- Claim C3 as amended: on the metadata-serving path, an id-keyed request
carries cache-forever semantics with a validator derived from
(id, sizeClass, createdAt trimmed to whole seconds) — createdAt, not
lastModifiedAt — a request whose presented validator matches gets the
bodyless not-modified response, and a secondary-key request carries the
10-minute cache lifetime with no validator headers. -/
theorem claimC3_amended :
    ∀ (env : Env) (keyIsId : Bool) (v : Nat) (size : SizeClass) (ctx : Ctx)
      (r : CoverRecord) (B : String),
      blockedCond env.cfg v = false →
      clusterCond env.cfg v size = false →
      denseCond v = false →
      get_details env v size.lower = .ok (some (.dbDetails r)) →
      zipRedirectCond (.dbDetails r) = false →
      env.readImage (.dbDetails r) size.str = .ok B →
      ((keyIsId = true →
        (webModified ctx.ifNoneMatch ctx.ifModifiedSince
            (trim_microsecond r.created) (etagStr r.id size) = false →
          coverGET env keyIsId (some v) size ctx = .ok .notmodified) ∧
        (webModified ctx.ifNoneMatch ctx.ifModifiedSince
            (trim_microsecond r.created) (etagStr r.id size) = true →
          coverGET env keyIsId (some v) size ctx =
            .ok (.image .forever (some (etagStr r.id size))
              (some (trim_microsecond r.created)) B))) ∧
       (keyIsId = false →
        coverGET env keyIsId (some v) size ctx =
          .ok (.image .tenMinutes none none B))) := by
  intro env keyIsId v size ctx r B hb hc hd hget hz hr
  have hbase := coverGET_after_stages env keyIsId v size ctx hb hc hd
  rw [hget] at hbase
  refine ⟨fun hk => ?_, fun hk => ?_⟩
  · subst hk
    constructor
    · intro hm
      rw [hbase]
      simp only [if_true]
      simp only [detCreated, detId] at hm ⊢
      rw [if_pos hm]
    · intro hm
      rw [hbase]
      simp only [if_true]
      simp only [detCreated, detId] at hm ⊢
      rw [hm]
      simp
      exact serveBody_ok env _ size .forever _ _ B hz hr
  · subst hk
    rw [hbase]
    simp only [Bool.false_eq_true, if_false]
    exact serveBody_ok env _ size .tenMinutes none none B hz hr

/-- Witness for the amended claim C3 on the record of envC3a (created at
second 100): presenting If-Modified-Since 100 yields not-modified; with no
validators the id-keyed response is the cache-forever image carrying the
ETag and the created-derived Last-Modified; a secondary-key request gets
the 10-minute image with no validator headers. -/
theorem claimC3_amended_witness :
    coverGET envC3a true (some 7000000) SizeClass.M ctxC3nm = .ok .notmodified ∧
    coverGET envC3a true (some 7000000) SizeClass.M ctxPlain =
      .ok (.image .forever (some (etagStr 7000000 SizeClass.M))
        (some (trim_microsecond recC3a.created)) "IMG") ∧
    coverGET envC3a false (some 7000000) SizeClass.M ctxPlain =
      .ok (.image .tenMinutes none none "IMG") :=
  ⟨(claimC3_amended envC3a true 7000000 SizeClass.M ctxC3nm recC3a "IMG"
      (by decide) (by decide) (by decide) rfl (by decide) rfl).1 rfl |>.1 (by decide),
   (claimC3_amended envC3a true 7000000 SizeClass.M ctxPlain recC3a "IMG"
      (by decide) (by decide) (by decide) rfl (by decide) rfl).1 rfl |>.2 (by decide),
   (claimC3_amended envC3a false 7000000 SizeClass.M ctxPlain recC3a "IMG"
      (by decide) (by decide) (by decide) rfl (by decide) rfl).2 rfl⟩

/-- Claim C4 as amended: for id 8,500,000 (zero-padded 0008500000) the
router returns the archive.org redirect whose item is <pfx>covers_0008 and
whose tar is <pfx>covers_0008_50.tar — first four digits 0008, digits five
and six 50 — with the lowercase size prefix (empty for Original) and the
-SIZE entry suffix. -/
theorem claimC4_amended :
    (∀ (env : Env) (keyIsId : Bool) (size : SizeClass) (ctx : Ctx),
      blockedCond env.cfg 8500000 = false →
      clusterCond env.cfg 8500000 size = false →
      coverGET env keyIsId (some 8500000) size ctx =
        .ok (.found (env.protocol ++ denseTarTail 8500000 size))) ∧
    denseTarTail 8500000 SizeClass.Orig =
      "://archive.org/download/covers_0008/covers_0008_50.tar/0008500000.jpg" ∧
    denseTarTail 8500000 SizeClass.S =
      "://archive.org/download/s_covers_0008/s_covers_0008_50.tar/0008500000-S.jpg" ∧
    denseTarTail 8500000 SizeClass.M =
      "://archive.org/download/m_covers_0008/m_covers_0008_50.tar/0008500000-M.jpg" ∧
    denseTarTail 8500000 SizeClass.L =
      "://archive.org/download/l_covers_0008/l_covers_0008_50.tar/0008500000-L.jpg" := by
  refine ⟨fun env keyIsId size ctx hb hc => ?_, by decide, by decide, by decide, by decide⟩
  exact coverGET_dense env keyIsId 8500000 size ctx (by omega) (by omega) hb hc

/-- Witness for the amended claim C4: the medium-size request for
id 8,500,000 over the empty configuration. -/
theorem claimC4_amended_witness :
    coverGET envC4 true (some 8500000) SizeClass.M ctxPlain =
      .ok (.found (envC4.protocol ++ denseTarTail 8500000 SizeClass.M)) :=
  claimC4_amended.1 envC4 true SizeClass.M ctxPlain (by decide) (by decide)

/-- Claim C6 as amended: an OSError while reading the blob bytes of a
resolved record yields a not-found response rather than a fatal error, but
it is the bare web.notfound() of the except handler, not the configured
placeholder image the notfound() helper serves for other not-found
requests. -/
theorem claimC6_amended :
    ∀ (env : Env) (keyIsId : Bool) (v : Nat) (size : SizeClass) (ctx : Ctx)
      (d : Details),
      blockedCond env.cfg v = false →
      clusterCond env.cfg v size = false →
      denseCond v = false →
      get_details env v size.lower = .ok (some d) →
      zipRedirectCond d = false →
      env.readImage d size.str = .error () →
      (keyIsId = false ∨
        webModified ctx.ifNoneMatch ctx.ifModifiedSince
          (trim_microsecond (detCreated d)) (etagStr (detId d) size) = true) →
      coverGET env keyIsId (some v) size ctx = .ok .notfoundBare := by
  intro env keyIsId v size ctx d hb hc hd hget hz hr hkey
  have hbase := coverGET_after_stages env keyIsId v size ctx hb hc hd
  rw [hget] at hbase
  rw [hbase]
  rcases hkey with hk | hm
  · subst hk
    simp only [Bool.false_eq_true, if_false]
    exact serveBody_oserror env d size .tenMinutes none none hz hr
  · cases keyIsId with
    | false =>
      simp only [Bool.false_eq_true, if_false]
      exact serveBody_oserror env d size .tenMinutes none none hz hr
    | true =>
      simp only [if_true]
      rw [hm]
      simp
      exact serveBody_oserror env d size .forever _ _ hz hr

/-- Witness for the amended claim C6: the failing read of the envC6 record
answers with the bare 404. -/
theorem claimC6_amended_witness :
    coverGET envC6 false (some 7000000) SizeClass.M ctxPlain = .ok .notfoundBare :=
  claimC6_amended envC6 false 7000000 SizeClass.M ctxPlain (.dbDetails recC6)
    (by decide) (by decide) (by decide) rfl (by decide) rfl (Or.inl rfl)

end Coverstore
